import Mathlib

/-!
Verification development for the `InputField` widget of the termimad
repository (src/views/input_field.rs).

The shallow embedding below translates the widget's state and the
operations needed by the claims.  External collaborators
(`InputFieldContent` = the TextBuffer, `Area.contains`, the scrollbar
activation test, crossterm key types) are not part of the given sources;
where needed they are modelled from the specification (their doc comments
say so explicitly).  Everything else is a direct transliteration of
src/views/input_field.rs.

Rust `usize`/`u16` values are modelled as `Nat`.  Every subtraction in
`fix_scroll` except `width -= 1` is guarded by a comparison making Nat
truncated subtraction agree with Rust; `width -= 1` underflows in Rust
only for a zero-width area with vertical overflow, a degenerate case no
theorem below relies on.
-/

namespace Termimad

/-- Buffer / scroll coordinates (termimad `Pos { x, y }`). -/
structure Pos where
  x : Nat
  y : Nat
deriving Repr, DecidableEq

/-- Terminal rectangle (termimad `Area { left, top, width, height }`). -/
structure Area where
  left : Nat
  top : Nat
  width : Nat
  height : Nat
deriving Repr, DecidableEq

/-- Modelled from the spec: `Area::contains` is not under src/; the spec
describes the inside of the area as `[left,left+width) x [top,top+height)`. -/
def Area.contains (a : Area) (x y : Nat) : Bool :=
  decide (a.left ≤ x) && decide (x < a.left + a.width)
    && decide (a.top ≤ y) && decide (y < a.top + a.height)

/-- One line of the text buffer: its characters (`line.chars` in the source). -/
structure Line where
  chars : List Char
deriving Repr, DecidableEq

/-- Modelled from the spec: the external TextBuffer (`InputFieldContent`):
an ordered sequence of lines plus a cursor position (spec section 6). -/
structure InputFieldContent where
  lines : List Line
  cursor : Pos
deriving Repr, DecidableEq

/-- TextBuffer `cursor_pos()` accessor. -/
def InputFieldContent.cursor_pos (c : InputFieldContent) : Pos :=
  c.cursor

/-- Modelled from the spec: TextBuffer `current_line()` is the line the
cursor is on (spec section 6). -/
def InputFieldContent.current_line (c : InputFieldContent) : Line :=
  c.lines.getD c.cursor.y ⟨[]⟩

/-- TextBuffer `line_count()`. -/
def InputFieldContent.line_count (c : InputFieldContent) : Nat :=
  c.lines.length

/-- Modelled from the spec: TextBuffer `set_cursor_pos(Pos)` (spec section 6). -/
def InputFieldContent.set_cursor_pos (c : InputFieldContent) (p : Pos) : InputFieldContent :=
  { c with cursor := p }

/-- crossterm `KeyCode` (external crate), restricted to the codes the
widget's dispatch table mentions plus a distinct unhandled code. -/
inductive KeyCode where
  | Home
  | End
  | Char (c : Char)
  | Up
  | Down
  | Left
  | Right
  | PageUp
  | PageDown
  | Backspace
  | Delete
  | Enter
  | Esc
deriving Repr, DecidableEq

/-- crossterm `KeyModifiers` (external crate): a set of modifier flags. -/
structure KeyModifiers where
  shift : Bool
  ctrl : Bool
  alt : Bool
deriving Repr, DecidableEq

def KeyModifiers.NONE : KeyModifiers := ⟨false, false, false⟩

def KeyModifiers.SHIFT : KeyModifiers := ⟨true, false, false⟩

def KeyModifiers.CONTROL : KeyModifiers := ⟨false, true, false⟩

def KeyModifiers.ALT : KeyModifiers := ⟨false, false, true⟩

/-- crossterm `KeyEvent`: a key code together with its modifiers. -/
structure KeyEvent where
  code : KeyCode
  modifiers : KeyModifiers
deriving Repr, DecidableEq

/-- termimad `Event`, as matched by `InputField::apply_event`:
a click (extra payload irrelevant to the match), a key, or anything else. -/
inductive Event where
  | Click (x y : Nat) (mods : KeyModifiers)
  | Key (k : KeyEvent)
  | Other
deriving Repr, DecidableEq

/-- The widget state (struct `InputField`, src/views/input_field.rs lines
30-42).  The style fields are opaque collaborators with no influence on
any claim and are omitted; `content` is the TextBuffer. -/
structure InputField where
  content : InputFieldContent
  area : Area
  password_mode : Bool
  focused : Bool
  scroll : Pos
  new_line_keys : List KeyEvent
deriving Repr, DecidableEq

/-- `InputField::ENTER` (source lines 65-68). -/
def InputField.ENTER : KeyEvent := ⟨KeyCode.Enter, KeyModifiers.NONE⟩

/-- `InputField::ALT_ENTER` (source lines 69-72). -/
def InputField.ALT_ENTER : KeyEvent := ⟨KeyCode.Enter, KeyModifiers.ALT⟩

/-!  ## The scroll synchronizer (`InputField::fix_scroll`, source lines 316-379)

The source computes the new `scroll.y` (from `height`, `lines.len()`,
the stored `scroll.y`, `pos.y` and `focused`) and then the new `scroll.x`
(from the post-scrollbar `width`, `current_line().chars.len()`, the
stored `scroll.x`, `pos.x` and `focused`); the two axes do not interact
except through the shared `width -= 1`.  They are transliterated as the
two functions `fixScrollY` and `fixScrollX` below, combined in
`fixScroll`. -/

/-- Source lines 329-331: clamp `scroll.y` so the window does not hang
below the last line (only evaluated when `lines.len() > height`). -/
def clampScrollY (height numLines sy : Nat) : Nat :=
  if sy + height > numLines then numLines - height else sy

/-- Vertical half of `fix_scroll` (source lines 320-346).
When the buffer does not overflow vertically the source sets
`scroll.y = 0` (line 324); otherwise it clamps (lines 329-331) and, when
focused, snaps the cursor line into view (lines 332-345).
`posY - height + 1 - 1` of the source's lines 340-343 is written
`posY - height` (equal in Nat since `posY ≥ height` holds there). -/
def fixScrollY (height numLines sy posY : Nat) (focused : Bool) : Nat :=
  if numLines > height then
    if focused then
      if clampScrollY height numLines sy > posY then
        (if posY > 0 ∧ height > 4 then posY - 1 else posY)
      else if posY ≥ clampScrollY height numLines sy + height then
        (if posY + 1 < numLines then posY - height else posY - height + 1)
      else clampScrollY height numLines sy
    else clampScrollY height numLines sy
  else 0

/-- Source lines 375-377: final clamp keeping
`scroll.x + width ≤ line_len + 1`. -/
def clampScrollX (width lineLen sx1 : Nat) : Nat :=
  if sx1 + width > lineLen + 1 then lineLen + 1 - width else sx1

/-- Horizontal half of `fix_scroll` (source lines 348-378): zero when the
current line fits, otherwise the focused margin-band adjustment
(lines 352-374) followed by the final clamp (lines 375-377). -/
def fixScrollX (width lineLen sx posX : Nat) (focused : Bool) : Nat :=
  if lineLen < width then 0
  else
    clampScrollX width lineLen
      (if focused then
        (if width < 4 then
          (if posX < 2 then 0
           else if posX < sx + 1 then posX - 1
           else if posX > sx + width then posX + 1 - width
           else sx)
         else
          (if posX < sx + 2 then (if posX < 2 then 0 else posX - 2)
           else if posX > sx + width - 2 then posX + 2 - width
           else sx))
       else sx)

/-- The `width` local of `fix_scroll` after lines 320-325: the area width
minus one when a vertical scrollbar is shown (`lines.len() > height`). -/
def effectiveWidth (f : InputField) : Nat :=
  if f.content.lines.length > f.area.height then f.area.width - 1 else f.area.width

/-- `InputField::fix_scroll` (source lines 316-379). -/
def fixScroll (f : InputField) : InputField :=
  { f with scroll :=
      ⟨fixScrollX (effectiveWidth f) f.content.current_line.chars.length
          f.scroll.x f.content.cursor_pos.x f.focused,
       fixScrollY f.area.height f.content.lines.length
          f.scroll.y f.content.cursor_pos.y f.focused⟩ }

/-!  ## TextBuffer mutation and movement operations

These live in `InputFieldContent` (src/input_field_content.rs), which is
not among the given sources; each is modelled from the spec's operation
contract (section 6).  Each returns the new buffer together with the
changed/unchanged report.  No claim below depends on their fine details:
they only feed the dispatch plumbing that the claims are about. -/

/-- Modelled from the spec: `insert_char` puts a char at the cursor and
increments the cursor column (spec section 6, source comment lines 179-180). -/
def InputFieldContent.insert_char (c : InputFieldContent) (ch : Char) : InputFieldContent :=
  { lines := c.lines.set c.cursor.y
      ⟨c.current_line.chars.take c.cursor.x ++ [ch] ++ c.current_line.chars.drop c.cursor.x⟩,
    cursor := ⟨c.cursor.x + 1, c.cursor.y⟩ }

/-- Modelled from the spec: `insert_new_line` inserts a line break at the
cursor, splitting the current line (spec section 6 and glossary). -/
def InputFieldContent.insert_new_line (c : InputFieldContent) : InputFieldContent :=
  { lines := c.lines.take c.cursor.y
      ++ [⟨c.current_line.chars.take c.cursor.x⟩, ⟨c.current_line.chars.drop c.cursor.x⟩]
      ++ c.lines.drop (c.cursor.y + 1),
    cursor := ⟨0, c.cursor.y + 1⟩ }

/-- Modelled from the spec: deletion char-right (`del_char_below`) removes
the character at the cursor if any, else joins the next line; reports
whether anything changed (spec section 6). -/
def InputFieldContent.del_char_below (c : InputFieldContent) : InputFieldContent × Bool :=
  if c.cursor.x < c.current_line.chars.length then
    ({ c with lines := (c.lines.set c.cursor.y
        ⟨c.current_line.chars.take c.cursor.x ++ c.current_line.chars.drop (c.cursor.x + 1)⟩) },
     true)
  else if c.cursor.y + 1 < c.lines.length then
    ({ c with lines := (c.lines.take c.cursor.y
        ++ [⟨c.current_line.chars ++ (c.lines.getD (c.cursor.y + 1) ⟨[]⟩).chars⟩]
        ++ c.lines.drop (c.cursor.y + 2)) },
     true)
  else (c, false)

/-- Modelled from the spec: deletion char-left removes the character
before the cursor if any, else joins with the previous line (spec section 6). -/
def InputFieldContent.del_char_left (c : InputFieldContent) : InputFieldContent × Bool :=
  if 0 < c.cursor.x then
    let nl : Line :=
      ⟨c.current_line.chars.take (c.cursor.x - 1) ++ c.current_line.chars.drop c.cursor.x⟩
    ({ lines := c.lines.set c.cursor.y nl, cursor := ⟨c.cursor.x - 1, c.cursor.y⟩ }, true)
  else if 0 < c.cursor.y then
    let prev : Line := c.lines.getD (c.cursor.y - 1) ⟨[]⟩
    let merged : List Line :=
      c.lines.take (c.cursor.y - 1) ++ [⟨prev.chars ++ c.current_line.chars⟩]
        ++ c.lines.drop (c.cursor.y + 1)
    ({ lines := merged, cursor := ⟨prev.chars.length, c.cursor.y - 1⟩ }, true)
  else (c, false)

/-- Modelled from the spec: movement left (spec section 6). -/
def InputFieldContent.move_left (c : InputFieldContent) : InputFieldContent × Bool :=
  if 0 < c.cursor.x then ({ c with cursor := ⟨c.cursor.x - 1, c.cursor.y⟩ }, true)
  else if 0 < c.cursor.y then
    ({ c with cursor := ⟨(c.lines.getD (c.cursor.y - 1) ⟨[]⟩).chars.length, c.cursor.y - 1⟩ }, true)
  else (c, false)

/-- Modelled from the spec: movement right (spec section 6). -/
def InputFieldContent.move_right (c : InputFieldContent) : InputFieldContent × Bool :=
  if c.cursor.x < c.current_line.chars.length then
    ({ c with cursor := ⟨c.cursor.x + 1, c.cursor.y⟩ }, true)
  else if c.cursor.y + 1 < c.lines.length then
    ({ c with cursor := ⟨0, c.cursor.y + 1⟩ }, true)
  else (c, false)

/-- Modelled from the spec: movement up (spec section 6). -/
def InputFieldContent.move_up (c : InputFieldContent) : InputFieldContent × Bool :=
  if 0 < c.cursor.y then
    ({ c with cursor :=
        ⟨min c.cursor.x (c.lines.getD (c.cursor.y - 1) ⟨[]⟩).chars.length, c.cursor.y - 1⟩ },
     true)
  else (c, false)

/-- Modelled from the spec: movement down (spec section 6). -/
def InputFieldContent.move_down (c : InputFieldContent) : InputFieldContent × Bool :=
  if c.cursor.y + 1 < c.lines.length then
    ({ c with cursor :=
        ⟨min c.cursor.x (c.lines.getD (c.cursor.y + 1) ⟨[]⟩).chars.length, c.cursor.y + 1⟩ },
     true)
  else (c, false)

/-- Modelled from the spec: move-to-line-start (spec section 6). -/
def InputFieldContent.move_to_line_start (c : InputFieldContent) : InputFieldContent × Bool :=
  if 0 < c.cursor.x then ({ c with cursor := ⟨0, c.cursor.y⟩ }, true) else (c, false)

/-- Modelled from the spec: move-to-line-end (spec section 6). -/
def InputFieldContent.move_to_line_end (c : InputFieldContent) : InputFieldContent × Bool :=
  if c.cursor.x < c.current_line.chars.length then
    ({ c with cursor := ⟨c.current_line.chars.length, c.cursor.y⟩ }, true)
  else (c, false)

/-- Modelled from the spec: page movement up by `n` lines (spec section 6). -/
def InputFieldContent.move_lines_up (c : InputFieldContent) (n : Nat) : InputFieldContent × Bool :=
  if 0 < c.cursor.y then
    ({ c with cursor :=
        ⟨min c.cursor.x (c.lines.getD (c.cursor.y - n) ⟨[]⟩).chars.length, c.cursor.y - n⟩ },
     true)
  else (c, false)

/-- Modelled from the spec: page movement down by `n` lines (spec section 6). -/
def InputFieldContent.move_lines_down (c : InputFieldContent) (n : Nat) : InputFieldContent × Bool :=
  if c.cursor.y + 1 < c.lines.length then
    ({ c with cursor :=
        ⟨min c.cursor.x (c.lines.getD (min (c.cursor.y + n) (c.lines.length - 1)) ⟨[]⟩).chars.length,
         min (c.cursor.y + n) (c.lines.length - 1)⟩ },
     true)
  else (c, false)

/-!  ## The widget's operations (src/views/input_field.rs) -/

/-- The `wrap_content_fun!` macro (source lines 50-61): run a TextBuffer
operation; if it reports a change, resynchronize the scroll and report
`true`, else report `false`. -/
def wrapContentFun (op : InputFieldContent → InputFieldContent × Bool)
    (f : InputField) : InputField × Bool :=
  if (op f.content).2 then (fixScroll { f with content := (op f.content).1 }, true)
  else ({ f with content := (op f.content).1 }, false)

/-- `InputField::move_up` (source line 200). -/
def InputField.move_up (f : InputField) : InputField × Bool :=
  wrapContentFun InputFieldContent.move_up f

/-- `InputField::move_down` (source line 201). -/
def InputField.move_down (f : InputField) : InputField × Bool :=
  wrapContentFun InputFieldContent.move_down f

/-- `InputField::move_left` (source line 202). -/
def InputField.move_left (f : InputField) : InputField × Bool :=
  wrapContentFun InputFieldContent.move_left f

/-- `InputField::move_right` (source line 203). -/
def InputField.move_right (f : InputField) : InputField × Bool :=
  wrapContentFun InputFieldContent.move_right f

/-- `InputField::move_to_line_start` (source line 206). -/
def InputField.move_to_line_start (f : InputField) : InputField × Bool :=
  wrapContentFun InputFieldContent.move_to_line_start f

/-- `InputField::move_to_line_end` (source line 207). -/
def InputField.move_to_line_end (f : InputField) : InputField × Bool :=
  wrapContentFun InputFieldContent.move_to_line_end f

/-- `InputField::del_char_left` (source line 210). -/
def InputField.del_char_left (f : InputField) : InputField × Bool :=
  wrapContentFun InputFieldContent.del_char_left f

/-- `InputField::del_char_below` (source lines 191-193): forwards the
TextBuffer's report and does NOT call `fix_scroll`. -/
def InputField.del_char_below (f : InputField) : InputField × Bool :=
  (({ f with content := (f.content.del_char_below).1 } : InputField),
   (f.content.del_char_below).2)

/-- `InputField::page_up` (source lines 214-221). -/
def InputField.page_up (f : InputField) : InputField × Bool :=
  wrapContentFun (fun c => c.move_lines_up f.area.height) f

/-- `InputField::page_down` (source lines 223-230). -/
def InputField.page_down (f : InputField) : InputField × Bool :=
  wrapContentFun (fun c => c.move_lines_down f.area.height) f

/-- `InputField::put_char` (source lines 181-185): insert, resync, `true`. -/
def InputField.put_char (f : InputField) (ch : Char) : InputField × Bool :=
  (fixScroll { f with content := f.content.insert_char ch }, true)

/-- `InputField::insert_new_line` (source lines 174-178): insert the
line break, resync, `true`. -/
def InputField.insert_new_line (f : InputField) : InputField × Bool :=
  (fixScroll { f with content := f.content.insert_new_line }, true)

/-- `InputField::change_area` (source lines 115-120): move/resize the
area keeping its height, then resync. -/
def InputField.change_area (f : InputField) (x y w : Nat) : InputField :=
  fixScroll { f with area := { left := x, top := y, width := w, height := f.area.height } }

/-- `InputField::apply_keycode_event` (source lines 262-280). -/
def applyKeycodeEvent (f : InputField) (code : KeyCode) : InputField × Bool :=
  if f.focused = false then (f, false)
  else match code with
  | KeyCode.Home => f.move_to_line_start
  | KeyCode.End => f.move_to_line_end
  | KeyCode.Char c => f.put_char c
  | KeyCode.Up => f.move_up
  | KeyCode.Down => f.move_down
  | KeyCode.Left => f.move_left
  | KeyCode.PageUp => f.page_up
  | KeyCode.PageDown => f.page_down
  | KeyCode.Right => f.move_right
  | KeyCode.Backspace => f.del_char_left
  | KeyCode.Delete => f.del_char_below
  | _ => (f, false)

/-- `InputField::apply_key_event` (source lines 240-255): when focused,
the registered newline-trigger keys are checked first; the remaining
keys are forwarded to `apply_keycode_event` exactly when their modifiers
are `NONE` or `SHIFT`. -/
def applyKeyEvent (f : InputField) (key : KeyEvent) : InputField × Bool :=
  if f.focused = false then (f, false)
  else if key ∈ f.new_line_keys then ((f.insert_new_line).1, true)
  else if key.modifiers = KeyModifiers.NONE ∨ key.modifiers = KeyModifiers.SHIFT then
    applyKeycodeEvent f key.code
  else (f, false)

/-- `InputField::apply_click_event` (source lines 283-297). -/
def applyClickEvent (f : InputField) (x y : Nat) : InputField × Bool :=
  if f.area.contains x y then
    if f.focused then
      ({ f with content := (f.content.set_cursor_pos
          ⟨x - f.area.left + f.scroll.x, y - f.area.top + f.scroll.y⟩) },
       true)
    else ({ f with focused := true }, true)
  else (f, false)

/-- `InputField::apply_event` (source lines 302-314): clicks go to
`apply_click_event`; key events whose modifiers are empty or `SHIFT` go
directly to `apply_keycode_event` (the newline-trigger set is not
consulted here); everything else is unhandled. -/
def applyEvent (f : InputField) (e : Event) : InputField × Bool :=
  match e with
  | Event.Click x y _ => applyClickEvent f x y
  | Event.Key k =>
      if k.modifiers = KeyModifiers.NONE ∨ k.modifiers = KeyModifiers.SHIFT then
        applyKeycodeEvent f k.code
      else (f, false)
  | Event.Other => (f, false)

/-!  ## The renderer (`InputField::display_on`, source lines 388-472)

The renderer writes styled cells to the sink; the claims concern what is
drawn per cell, so the per-row / per-column decision logic of the loop
(source lines 421-458) is embedded as a pure cell function. -/

/-- What one cell of a rendered row shows: an ellipsis glyph, a blank
(cursor-styled or not), or a character glyph (cursor-styled or not). -/
inductive Cell where
  | ellipsis
  | blank (cursorStyled : Bool)
  | glyph (c : Char) (cursorStyled : Bool)
deriving Repr, DecidableEq

/-- The usable width of `display_on` (source lines 395-403): the area
width minus one when a vertical scrollbar is shown.  Modelled from the
spec for the scrollbar activation test (`Area::scrollbar` is not under
src/): a vertical scrollbar is active iff `line_count > height`
(spec section 4.3 step 3). -/
def usableWidth (f : InputField) : Nat :=
  if f.content.line_count > f.area.height then f.area.width - 1 else f.area.width

/-- The buffer line shown on output row `j` (source lines 416-423:
the lines iterator is advanced past `scroll.y`, so row `j` shows line
`scroll.y + j` when it exists). -/
def rowLine (f : InputField) (j : Nat) : Option Line :=
  f.content.lines.get? (f.scroll.y + j)

/-- The cell drawn at column `i` of a row showing the existing buffer
line `y` with characters `chars` (the loop body, source lines 424-458).
`w` is the usable width.  The source's row-local flags appear inline:
`ellipsis_at_start = scroll.x > 0 && width > 4` (line 425),
`cursor_at_end = focused && y == pos.y && pos.x == chars.len()` (line 426),
`ellipsis_at_end = !cursor_at_end && chars.len() > scroll.x + width && width > 4`
(lines 427-429). -/
def cellAt (f : InputField) (w y : Nat) (chars : List Char) (i : Nat) : Cell :=
  if i = 0 ∧ (0 < f.scroll.x ∧ 4 < w) ∧ 0 < chars.length then Cell.ellipsis
  else if i = w - 1
      ∧ (¬(f.focused = true ∧ y = f.content.cursor_pos.y
            ∧ f.content.cursor_pos.x = chars.length)
         ∧ chars.length > f.scroll.x + w ∧ 4 < w) then Cell.ellipsis
  else if chars.length ≤ i + f.scroll.x then
    (if (f.focused = true ∧ y = f.content.cursor_pos.y
          ∧ f.content.cursor_pos.x = chars.length)
        ∧ i + f.scroll.x = chars.length
     then Cell.blank true else Cell.blank false)
  else
    (if f.focused = true ∧ f.content.cursor_pos.x = i + f.scroll.x
        ∧ f.content.cursor_pos.y = y
     then Cell.glyph (if f.password_mode then '*' else chars.getD (i + f.scroll.x) ' ') true
     else Cell.glyph (if f.password_mode then '*' else chars.getD (i + f.scroll.x) ' ') false)

/-!  ## Helper lemmas about the two axes of `fix_scroll` -/

/-- Vertical visibility, as far as it actually holds: with a positive
height, a vertical overflow and a cursor on a buffer line, the cursor
line ends no higher than the window top and no further than ONE line
below the last visible row (the closed upper bound `scroll.y + height`
is reached exactly when the below-window one-line adjustment of source
lines 341-343 fires). -/
theorem fixScrollY_visible (h L sy py : Nat) (hh : 1 ≤ h) (hL : h < L) (hpy : py < L) :
    fixScrollY h L sy py true ≤ py ∧ py ≤ fixScrollY h L sy py true + h := by
  rw [fixScrollY]
  simp only [clampScrollY]
  split_ifs <;> omega

/-- Horizontal visibility for widths of at least 4 (the margin-2 band of
source lines 363-373): the cursor column lands inside
`[scroll.x, scroll.x + width)`. -/
theorem fixScrollX_visible (w ll sx px : Nat) (hw : 4 ≤ w) (hll : w ≤ ll) (hpx : px ≤ ll) :
    fixScrollX w ll sx px true ≤ px ∧ px < fixScrollX w ll sx px true + w := by
  rw [fixScrollX]
  simp only [clampScrollX]
  split_ifs <;> omega

/-- The final clamp of source lines 375-377: when the line does not fit,
`scroll.x + width ≤ line_len + 1` after `fix_scroll`. -/
theorem fixScrollX_clamped (w ll sx px : Nat) (foc : Bool) (hll : w ≤ ll) :
    fixScrollX w ll sx px foc + w ≤ ll + 1 := by
  rw [fixScrollX]
  simp only [clampScrollX]
  cases foc <;> split_ifs <;> omega

/-- Source lines 349-350: when the current line fits, `scroll.x` is zeroed. -/
theorem fixScrollX_zero (w ll sx px : Nat) (foc : Bool) (hll : ll < w) :
    fixScrollX w ll sx px foc = 0 := by
  rw [fixScrollX]
  simp [hll]

/-- The horizontal half of `fix_scroll` is idempotent once the effective
width is at least 2 (it is not for width 1, see the counterexample to
claim C3). -/
theorem fixScrollX_idem (w ll sx px : Nat) (foc : Bool) (hw : 2 ≤ w) :
    fixScrollX w ll (fixScrollX w ll sx px foc) px foc = fixScrollX w ll sx px foc := by
  set o := fixScrollX w ll sx px foc with ho
  rw [fixScrollX, clampScrollX] at ho
  rw [fixScrollX, clampScrollX]
  cases foc <;> simp only [Bool.false_eq_true, if_false, if_true] at ho ⊢ <;>
    split_ifs at ho ⊢ <;> omega

/-- The vertical half of `fix_scroll` is idempotent once the height is
positive (it is not for height 0). -/
theorem fixScrollY_idem (h L sy py : Nat) (foc : Bool) (hh : 1 ≤ h) :
    fixScrollY h L (fixScrollY h L sy py foc) py foc = fixScrollY h L sy py foc := by
  set o := fixScrollY h L sy py foc with ho
  rw [fixScrollY] at ho
  rw [fixScrollY]
  cases foc <;> simp only [Bool.false_eq_true, if_false, if_true, clampScrollY] at ho ⊢ <;>
    split_ifs at ho ⊢ <;> omega

/-!  ## Concrete widget states used by the claim theorems -/

/-- A line of `n` copies of the letter a. -/
def charLine (n : Nat) : Line := ⟨List.replicate n 'a'⟩

/-- Ten 9-character lines in a 10x3 area, cursor on line 5 (not the last
line), synchronised from scroll 0. -/
def sampleC1 : InputField :=
  { content := { lines := List.replicate 10 (charLine 9), cursor := ⟨0, 5⟩ },
    area := ⟨0, 0, 10, 3⟩, password_mode := false, focused := true,
    scroll := ⟨0, 0⟩, new_line_keys := [] }

/-- A 5x1 area over one 10-character line, cursor at column 8,
scroll 6 — a `fix_scroll` fixpoint. -/
def sampleC2 : InputField :=
  { content := { lines := [charLine 10], cursor := ⟨8, 0⟩ },
    area := ⟨0, 0, 5, 1⟩, password_mode := false, focused := true,
    scroll := ⟨6, 0⟩, new_line_keys := [] }

/-- A 1x1 area over one 5-character line, cursor at column 2. -/
def sampleC3 : InputField :=
  { content := { lines := [charLine 5], cursor := ⟨2, 0⟩ },
    area := ⟨0, 0, 1, 1⟩, password_mode := false, focused := true,
    scroll := ⟨0, 0⟩, new_line_keys := [] }

/-- A synchronised state witnessing idempotence: 10x3 area, ten lines. -/
def sampleC3w : InputField :=
  { content := { lines := List.replicate 10 (charLine 9), cursor := ⟨3, 4⟩ },
    area := ⟨0, 0, 10, 3⟩, password_mode := false, focused := true,
    scroll := ⟨0, 0⟩, new_line_keys := [] }

/-- The widget before `change_area(0, 0, 10)`: content "hello", cursor
at its end. -/
def sampleC4 : InputField :=
  { content := { lines := [⟨String.toList "hello"⟩], cursor := ⟨5, 0⟩ },
    area := ⟨3, 3, 4, 1⟩, password_mode := false, focused := true,
    scroll := ⟨0, 0⟩, new_line_keys := [] }

/-- A long line requiring horizontal scroll: 10x1 area, 15 characters,
cursor at the end. -/
def sampleC4w : InputField :=
  { content := { lines := [charLine 15], cursor := ⟨15, 0⟩ },
    area := ⟨0, 0, 10, 1⟩, password_mode := false, focused := true,
    scroll := ⟨0, 0⟩, new_line_keys := [] }

/-- A 10x2 area over an empty first line and a 30-character second line,
cursor at column 20 of line 1, scroll 16 — a `fix_scroll` fixpoint with
horizontal truncation. -/
def sampleC5 : InputField :=
  { content := { lines := [⟨[]⟩, charLine 30], cursor := ⟨20, 1⟩ },
    area := ⟨0, 0, 10, 2⟩, password_mode := false, focused := true,
    scroll := ⟨16, 0⟩, new_line_keys := [] }

/-- Scenario A, first state: 10x1 area, content "hello", cursor at 5. -/
def sampleC6 : InputField :=
  { content := { lines := [⟨String.toList "hello"⟩], cursor := ⟨5, 0⟩ },
    area := ⟨0, 0, 10, 1⟩, password_mode := false, focused := true,
    scroll := ⟨0, 0⟩, new_line_keys := [] }

/-- Scenario B: 10x3 area, ten short lines, cursor moved to line 9. -/
def sampleC7 : InputField :=
  { content := { lines := List.replicate 10 (charLine 1), cursor := ⟨0, 9⟩ },
    area := ⟨0, 0, 10, 3⟩, password_mode := false, focused := true,
    scroll := ⟨0, 0⟩, new_line_keys := [] }

/-- A focused widget for the click witnesses. -/
def sampleC8 : InputField :=
  { content := { lines := [charLine 3], cursor := ⟨1, 0⟩ },
    area := ⟨2, 1, 6, 2⟩, password_mode := false, focused := true,
    scroll := ⟨0, 0⟩, new_line_keys := [] }

/-- The same widget, unfocused. -/
def sampleC8u : InputField :=
  { sampleC8 with focused := false }

/-- A focused widget whose only newline-trigger key is Alt-Enter. -/
def sampleC9 : InputField :=
  { content := { lines := [⟨String.toList "ab"⟩], cursor := ⟨1, 0⟩ },
    area := ⟨0, 0, 10, 5⟩, password_mode := false, focused := true,
    scroll := ⟨0, 0⟩, new_line_keys := [InputField.ALT_ENTER] }

/-- A focused widget with plain Enter registered as a newline trigger. -/
def sampleC10 : InputField :=
  { content := { lines := [⟨String.toList "ab"⟩], cursor := ⟨1, 0⟩ },
    area := ⟨0, 0, 10, 5⟩, password_mode := false, focused := true,
    scroll := ⟨0, 0⟩, new_line_keys := [InputField.ENTER] }

/-- A focused widget with Alt-Enter registered as a newline trigger,
for the second half of claim C10. -/
def sampleC10b : InputField :=
  { content := { lines := [⟨String.toList "ab"⟩], cursor := ⟨1, 0⟩ },
    area := ⟨0, 0, 10, 5⟩, password_mode := false, focused := true,
    scroll := ⟨0, 0⟩, new_line_keys := [InputField.ALT_ENTER] }

/-!  ## Claim C1 -/

/-- Claim C1, counterexample: a focused state requiring scrolling on both
axes (10 lines > height 3, line length 9 = effective width 9, a valid
cursor) for which `fix_scroll` leaves the cursor line OUTSIDE the
rendered window: the below-window branch snaps `scroll.y` to
`cursor.y - height + 1 = 3` and the one-line adjustment of source lines
341-343 then decrements it to 2, so `cursor.y = 5 ∉ [2, 2+3)`. -/
theorem claim1_visibility_cex :
    sampleC1.focused = true
    ∧ sampleC1.area.height < sampleC1.content.lines.length
    ∧ effectiveWidth sampleC1 ≤ sampleC1.content.current_line.chars.length
    ∧ ¬((fixScroll sampleC1).scroll.y ≤ sampleC1.content.cursor_pos.y
        ∧ sampleC1.content.cursor_pos.y
            < (fixScroll sampleC1).scroll.y + sampleC1.area.height) := by
  decide

/-- Claim C1 (amended): after `fix_scroll`, for a focused widget:
if the buffer scrolls vertically (positive height, more lines than rows,
cursor on a buffer line) then `scroll.y ≤ cursor.y ≤ scroll.y + height` —
the cursor line may sit exactly ONE line below the window when the
below-window one-line adjustment fires, and is inside otherwise; and if
the current line requires horizontal scrolling and the effective width is
at least 4 (the margin-1 band of smaller widths can leave an end-of-band
cursor just outside) then `cursor.x ∈ [scroll.x, scroll.x + width)`. -/
theorem claim1_visibility_amended (f : InputField) (hfoc : f.focused = true) :
    ((1 ≤ f.area.height → f.area.height < f.content.lines.length →
      f.content.cursor_pos.y < f.content.lines.length →
      (fixScroll f).scroll.y ≤ f.content.cursor_pos.y
        ∧ f.content.cursor_pos.y ≤ (fixScroll f).scroll.y + f.area.height))
    ∧ ((4 ≤ effectiveWidth f → effectiveWidth f ≤ f.content.current_line.chars.length →
      f.content.cursor_pos.x ≤ f.content.current_line.chars.length →
      (fixScroll f).scroll.x ≤ f.content.cursor_pos.x
        ∧ f.content.cursor_pos.x < (fixScroll f).scroll.x + effectiveWidth f)) := by
  constructor
  · intro hh hL hpy
    have hv := fixScrollY_visible f.area.height f.content.lines.length
      f.scroll.y f.content.cursor_pos.y hh hL hpy
    rw [show (fixScroll f).scroll.y
        = fixScrollY f.area.height f.content.lines.length
            f.scroll.y f.content.cursor_pos.y f.focused from rfl, hfoc]
    exact hv
  · intro hw hll hpx
    have hv := fixScrollX_visible (effectiveWidth f) f.content.current_line.chars.length
      f.scroll.x f.content.cursor_pos.x hw hll hpx
    rw [show (fixScroll f).scroll.x
        = fixScrollX (effectiveWidth f) f.content.current_line.chars.length
            f.scroll.x f.content.cursor_pos.x f.focused from rfl, hfoc]
    exact hv

/-- Witness for the amended claim C1 at a concrete state (`sampleC1`),
where both scrolling conditions hold. -/
theorem claim1_visibility_witness :
    ((fixScroll sampleC1).scroll.y ≤ sampleC1.content.cursor_pos.y
      ∧ sampleC1.content.cursor_pos.y
          ≤ (fixScroll sampleC1).scroll.y + sampleC1.area.height)
    ∧ ((fixScroll sampleC1).scroll.x ≤ sampleC1.content.cursor_pos.x
      ∧ sampleC1.content.cursor_pos.x
          < (fixScroll sampleC1).scroll.x + effectiveWidth sampleC1) :=
  ⟨(claim1_visibility_amended sampleC1 rfl).1 (by decide) (by decide) (by decide),
   (claim1_visibility_amended sampleC1 rfl).2 (by decide) (by decide) (by decide)⟩

/-!  ## Claim C2 -/

/-- Claim C2, counterexample: `sampleC2` is a synchronised fixpoint of
`fix_scroll`; a handled click inside the area relocates the cursor to
column 6 but leaves `scroll.x = 6`, while `fix_scroll` on the new state
would give `scroll.x = 4` — `apply_click_event` (source lines 283-297)
returns without resynchronizing. -/
theorem claim2_resync_cex :
    fixScroll sampleC2 = sampleC2
    ∧ (applyClickEvent sampleC2 0 0).2 = true
    ∧ (applyClickEvent sampleC2 0 0).1.scroll
        ≠ (fixScroll (applyClickEvent sampleC2 0 0).1).scroll := by
  decide

/-- Claim C2 (amended): the operations wrapped by the
`wrap_content_fun!` combinator (all the move/del family and, through the
same shape, page up/down) resynchronize the scroll exactly when the
TextBuffer reports a change, and report the unchanged result untouched
otherwise; but `apply_click_event` and `del_char_below` never touch the
scroll, so after them the scroll can differ from what `fix_scroll` would
compute (see the counterexample). -/
theorem claim2_resync_amended :
    (∀ (op : InputFieldContent → InputFieldContent × Bool) (f : InputField),
      ((op f.content).2 = true →
        wrapContentFun op f = (fixScroll { f with content := (op f.content).1 }, true))
      ∧ ((op f.content).2 = false →
        wrapContentFun op f = ({ f with content := (op f.content).1 }, false)))
    ∧ (∀ (f : InputField) (x y : Nat), (applyClickEvent f x y).1.scroll = f.scroll)
    ∧ (∀ f : InputField, (InputField.del_char_below f).1.scroll = f.scroll) := by
  refine ⟨fun op f => ⟨fun h => ?_, fun h => ?_⟩, fun f x y => ?_, fun f => ?_⟩
  · rw [wrapContentFun, h]
    simp
  · rw [wrapContentFun, h]
    simp
  · rw [applyClickEvent]
    split_ifs <;> rfl
  · rfl

/-- Witness for the amended claim C2: a changed `move_left` on a concrete
state resynchronizes the scroll. -/
theorem claim2_resync_witness :
    wrapContentFun InputFieldContent.move_left sampleC2
      = (fixScroll { sampleC2 with
          content := (InputFieldContent.move_left sampleC2.content).1 }, true) :=
  (claim2_resync_amended.1 InputFieldContent.move_left sampleC2).1 (by decide)

/-!  ## Claim C3 -/

/-- Claim C3, counterexample: with a 1x1 area (effective width 1), one
5-character line and the cursor at column 2, `fix_scroll` from scroll 0
yields `scroll.x = 2`, and running it again on its own output yields
`scroll.x = 1` — not idempotent. -/
theorem claim3_idempotent_cex :
    fixScroll (fixScroll sampleC3) ≠ fixScroll sampleC3 := by
  decide

/-- Claim C3 (amended): `fix_scroll` is idempotent for every state whose
area has positive height and effective width at least 2.  (It is NOT for
effective width 1 — the width-below-4 margin band then oscillates, see
the counterexample — nor for height 0.) -/
theorem claim3_idempotent_amended (f : InputField)
    (hh : 1 ≤ f.area.height) (hw : 2 ≤ effectiveWidth f) :
    fixScroll (fixScroll f) = fixScroll f := by
  have hx := fixScrollX_idem (effectiveWidth f) f.content.current_line.chars.length
    f.scroll.x f.content.cursor_pos.x f.focused hw
  have hy := fixScrollY_idem f.area.height f.content.lines.length
    f.scroll.y f.content.cursor_pos.y f.focused hh
  calc fixScroll (fixScroll f)
      = { f with scroll :=
          ⟨fixScrollX (effectiveWidth f) f.content.current_line.chars.length
             (fixScrollX (effectiveWidth f) f.content.current_line.chars.length
               f.scroll.x f.content.cursor_pos.x f.focused)
             f.content.cursor_pos.x f.focused,
           fixScrollY f.area.height f.content.lines.length
             (fixScrollY f.area.height f.content.lines.length
               f.scroll.y f.content.cursor_pos.y f.focused)
             f.content.cursor_pos.y f.focused⟩ } := rfl
    _ = { f with scroll :=
          ⟨fixScrollX (effectiveWidth f) f.content.current_line.chars.length
             f.scroll.x f.content.cursor_pos.x f.focused,
           fixScrollY f.area.height f.content.lines.length
             f.scroll.y f.content.cursor_pos.y f.focused⟩ } := by rw [hx, hy]
    _ = fixScroll f := rfl

/-- Witness for the amended claim C3 at a concrete state. -/
theorem claim3_idempotent_witness :
    fixScroll (fixScroll sampleC3w) = fixScroll sampleC3w :=
  claim3_idempotent_amended sampleC3w (by decide) (by decide)

/-!  ## Claim C4 -/

/-- Claim C4, counterexample: after the public call `change_area(0,0,10)`
on a widget holding "hello" (line length 5 < width 10), the scroll is 0
and `scroll.x + effective_width = 10 > line_length + 1 = 6`: the claimed
inequality does not hold for lines shorter than the effective width. -/
theorem claim4_hclamp_cex :
    ¬((sampleC4.change_area 0 0 10).scroll.x + effectiveWidth (sampleC4.change_area 0 0 10)
        ≤ (sampleC4.change_area 0 0 10).content.current_line.chars.length + 1) := by
  decide

/-- Claim C4 (amended): after `fix_scroll` (hence after every public call
that resynchronizes), if the current line is at least as long as the
effective width then `scroll.x + effective_width ≤ line_length + 1`;
for shorter lines the guarantee is instead `scroll.x = 0`. -/
theorem claim4_hclamp_amended (f : InputField) :
    (effectiveWidth f ≤ f.content.current_line.chars.length →
      (fixScroll f).scroll.x + effectiveWidth f
        ≤ f.content.current_line.chars.length + 1)
    ∧ (f.content.current_line.chars.length < effectiveWidth f →
      (fixScroll f).scroll.x = 0) := by
  constructor
  · intro h
    exact fixScrollX_clamped (effectiveWidth f) f.content.current_line.chars.length
      f.scroll.x f.content.cursor_pos.x f.focused h
  · intro h
    exact fixScrollX_zero (effectiveWidth f) f.content.current_line.chars.length
      f.scroll.x f.content.cursor_pos.x f.focused h

/-- Witness for the amended claim C4: the long-line case at `sampleC4w`
and the short-line case at the widened `sampleC4`. -/
theorem claim4_hclamp_witness :
    ((fixScroll sampleC4w).scroll.x + effectiveWidth sampleC4w
      ≤ sampleC4w.content.current_line.chars.length + 1)
    ∧ (fixScroll (sampleC4.change_area 0 0 10)).scroll.x = 0 :=
  ⟨(claim4_hclamp_amended sampleC4w).1 (by decide),
   (claim4_hclamp_amended (sampleC4.change_area 0 0 10)).2 (by decide)⟩

/-!  ## Claim C5 -/

/-- Claim C5, counterexample: in `sampleC5` the rendered row 0 shows the
existing (empty) buffer line 0 while `scroll.x = 16 > 0` and the usable
width 10 > 4, yet no leading ellipsis is drawn at column 0 — the source
(line 431) additionally requires the row's line to be non-empty. -/
theorem claim5_ellipsis_cex :
    rowLine sampleC5 0 = some ⟨[]⟩
    ∧ 0 < sampleC5.scroll.x
    ∧ 4 < usableWidth sampleC5
    ∧ cellAt sampleC5 (usableWidth sampleC5) (sampleC5.scroll.y + 0) [] 0
        ≠ Cell.ellipsis := by
  decide

/-- Claim C5 (amended): for every rendered row showing an existing buffer
line, a leading ellipsis is drawn iff `scroll.x > 0`, usable width > 4
AND the line is non-empty; a trailing ellipsis is drawn iff the line
extends past the visible window, usable width > 4 and the focused cursor
is not sitting at the end of that line's text (exactly as claimed). -/
theorem claim5_ellipsis_amended (f : InputField) (j : Nat) (line : Line)
    (_hj : j < f.area.height) (_hrow : rowLine f j = some line) :
    (cellAt f (usableWidth f) (f.scroll.y + j) line.chars 0 = Cell.ellipsis
      ↔ 0 < f.scroll.x ∧ 4 < usableWidth f ∧ line.chars ≠ [])
    ∧ (cellAt f (usableWidth f) (f.scroll.y + j) line.chars (usableWidth f - 1)
        = Cell.ellipsis
      ↔ ¬(f.focused = true ∧ f.scroll.y + j = f.content.cursor_pos.y
            ∧ f.content.cursor_pos.x = line.chars.length)
        ∧ line.chars.length > f.scroll.x + usableWidth f ∧ 4 < usableWidth f) := by
  constructor
  · rw [cellAt]
    split_ifs with h1 h2 h3 h4
    · exact iff_of_true rfl ⟨h1.2.1.1, h1.2.1.2, List.ne_nil_of_length_pos h1.2.2⟩
    · exact absurd h2.2.2.2 (by omega)
    · exact iff_of_false (by simp)
        (fun hr => h1 ⟨rfl, ⟨hr.1, hr.2.1⟩, List.length_pos.mpr hr.2.2⟩)
    · exact iff_of_false (by simp)
        (fun hr => h1 ⟨rfl, ⟨hr.1, hr.2.1⟩, List.length_pos.mpr hr.2.2⟩)
    · exact iff_of_false (by simp)
        (fun hr => h1 ⟨rfl, ⟨hr.1, hr.2.1⟩, List.length_pos.mpr hr.2.2⟩)
    · exact iff_of_false (by simp)
        (fun hr => h1 ⟨rfl, ⟨hr.1, hr.2.1⟩, List.length_pos.mpr hr.2.2⟩)
  · rw [cellAt]
    split_ifs with h1 h2 h3 h4
    · exact absurd h1 (by omega)
    · exact iff_of_true rfl h2.2
    · exact iff_of_false (by simp) (fun hr => h2 ⟨rfl, hr⟩)
    · exact iff_of_false (by simp) (fun hr => h2 ⟨rfl, hr⟩)
    · exact iff_of_false (by simp) (fun hr => h2 ⟨rfl, hr⟩)
    · exact iff_of_false (by simp) (fun hr => h2 ⟨rfl, hr⟩)

/-- Witness for the amended claim C5 at `sampleC5`, row 1 (the
30-character line): both the leading ellipsis (scrolled, non-empty line)
and the trailing ellipsis (line runs past the window, cursor not at its
end) are drawn. -/
theorem claim5_ellipsis_witness :
    cellAt sampleC5 (usableWidth sampleC5) (sampleC5.scroll.y + 1) (charLine 30).chars 0
      = Cell.ellipsis
    ∧ cellAt sampleC5 (usableWidth sampleC5) (sampleC5.scroll.y + 1) (charLine 30).chars
        (usableWidth sampleC5 - 1) = Cell.ellipsis :=
  ⟨(claim5_ellipsis_amended sampleC5 1 (charLine 30) (by decide) (by decide)).1.mpr
      (by decide),
   (claim5_ellipsis_amended sampleC5 1 (charLine 30) (by decide) (by decide)).2.mpr
      (by decide)⟩

/-!  ## Claim C6 -/

/-- Claim C6 (scenario A), confirmed: on the 10x1 widget holding "hello"
with the cursor at 5, `fix_scroll` leaves `scroll.x = 0`; typing 10 more
characters (through `put_char`, which resynchronizes) yields a line of
length 15 with the cursor at 15 and `scroll.x = 6`, and `fix_scroll` on
that state indeed yields 6. -/
theorem claim6_scenarioA :
    (fixScroll sampleC6).scroll.x = 0
    ∧ (List.foldl (fun g c => (g.put_char c).1) (fixScroll sampleC6)
        (List.replicate 10 'b')).content.current_line.chars.length = 15
    ∧ (List.foldl (fun g c => (g.put_char c).1) (fixScroll sampleC6)
        (List.replicate 10 'b')).content.cursor_pos.x = 15
    ∧ (fixScroll (List.foldl (fun g c => (g.put_char c).1) (fixScroll sampleC6)
        (List.replicate 10 'b'))).scroll.x = 6 := by
  decide

/-!  ## Claim C7 -/

/-- Claim C7 (scenario B), confirmed: 10 lines in a height-3 area, the
focused cursor on line 9 (the last line): `fix_scroll` sets
`scroll.y = 9 - 3 + 1 = 7` and the one-line adjustment does not apply
(`pos.y + 1 = 10` is not `< lines.len()`), so `scroll.y` stays 7 and
running `fix_scroll` again keeps it at 7. -/
theorem claim7_scenarioB :
    (fixScroll sampleC7).scroll.y = 7
    ∧ (fixScroll (fixScroll sampleC7)).scroll.y = 7 := by
  decide

/-!  ## Claim C8 -/

/-- Claim C8, confirmed: a click outside the area is unhandled and
changes nothing; a click inside while unfocused only focuses the widget
(cursor untouched) and is handled; a click inside while focused moves
the buffer cursor to `(x - left + scroll.x, y - top + scroll.y)` and is
handled (source lines 283-297). -/
theorem claim8_click (f : InputField) (x y : Nat) :
    (f.area.contains x y = false → applyClickEvent f x y = (f, false))
    ∧ (f.area.contains x y = true → f.focused = false →
        applyClickEvent f x y = ({ f with focused := true }, true))
    ∧ (f.area.contains x y = true → f.focused = true →
        applyClickEvent f x y = ({ f with content := (f.content.set_cursor_pos
          ⟨x - f.area.left + f.scroll.x, y - f.area.top + f.scroll.y⟩) }, true)) := by
  refine ⟨fun h => ?_, fun h hf => ?_, fun h hf => ?_⟩
  · rw [applyClickEvent]
    simp [h]
  · rw [applyClickEvent]
    simp [h, hf]
  · rw [applyClickEvent]
    simp [h, hf]

/-- Witness for claim C8: the three cases at concrete clicks on the
widget with area `[2,8) x [1,3)`. -/
theorem claim8_click_witness :
    applyClickEvent sampleC8 0 0 = (sampleC8, false)
    ∧ applyClickEvent sampleC8u 3 2 = ({ sampleC8u with focused := true }, true)
    ∧ applyClickEvent sampleC8 3 2 = ({ sampleC8 with content :=
        (sampleC8.content.set_cursor_pos ⟨1, 1⟩) }, true) :=
  ⟨(claim8_click sampleC8 0 0).1 (by decide),
   (claim8_click sampleC8u 3 2).2.1 (by decide) (by decide),
   (claim8_click sampleC8 3 2).2.2 (by decide) (by decide)⟩

/-!  ## Claim C9 -/

/-- Claim C9, confirmed: when focused, a key in the registered
newline-trigger set inserts a line break and is handled, with priority
over everything else; otherwise the key code is forwarded to
`apply_keycode_event` exactly when the modifiers are `NONE` or `SHIFT`,
and every other modifier combination is unhandled with the state
untouched (source lines 240-255). -/
theorem claim9_key_dispatch (f : InputField) (key : KeyEvent) (hfoc : f.focused = true) :
    (key ∈ f.new_line_keys →
      applyKeyEvent f key = ((f.insert_new_line).1, true))
    ∧ (key ∉ f.new_line_keys →
      ((key.modifiers = KeyModifiers.NONE ∨ key.modifiers = KeyModifiers.SHIFT) →
        applyKeyEvent f key = applyKeycodeEvent f key.code)
      ∧ (key.modifiers ≠ KeyModifiers.NONE → key.modifiers ≠ KeyModifiers.SHIFT →
        applyKeyEvent f key = (f, false))) := by
  refine ⟨fun hmem => ?_, fun hmem => ⟨fun hm => ?_, fun h1 h2 => ?_⟩⟩
  · rw [applyKeyEvent]
    simp [hfoc, hmem]
  · rw [applyKeyEvent]
    simp [hfoc, hmem, hm]
  · rw [applyKeyEvent]
    simp [hfoc, hmem, h1, h2]

/-- Witness for claim C9: on a widget whose newline trigger is Alt-Enter,
Ctrl+S is unhandled and changes nothing, Enter (no modifier) is forwarded
to the keycode dispatch, and Alt-Enter inserts the line break. -/
theorem claim9_key_dispatch_witness :
    applyKeyEvent sampleC9 ⟨KeyCode.Char 's', KeyModifiers.CONTROL⟩ = (sampleC9, false)
    ∧ applyKeyEvent sampleC9 ⟨KeyCode.Enter, KeyModifiers.NONE⟩
        = applyKeycodeEvent sampleC9 KeyCode.Enter
    ∧ applyKeyEvent sampleC9 InputField.ALT_ENTER = ((sampleC9.insert_new_line).1, true) :=
  ⟨((claim9_key_dispatch sampleC9 ⟨KeyCode.Char 's', KeyModifiers.CONTROL⟩ rfl).2
      (by decide)).2 (by decide) (by decide),
   ((claim9_key_dispatch sampleC9 ⟨KeyCode.Enter, KeyModifiers.NONE⟩ rfl).2
      (by decide)).1 (by decide),
   (claim9_key_dispatch sampleC9 InputField.ALT_ENTER rfl).1 (by decide)⟩

/-!  ## Claim C10 -/

/-- Claim C10, confirmed: `apply_event`'s key path is NOT equivalent to
`apply_key_event`.  With plain Enter registered as a newline trigger,
`apply_key_event(ENTER)` inserts a line break (the buffer grows by one
line) and is handled, while `apply_event(Key ENTER)` bypasses the
newline-trigger set, reaches `apply_keycode_event` (whose dispatch table
has no Enter arm) and returns unhandled with the state untouched; with
Alt-Enter registered, `apply_key_event(ALT_ENTER)` likewise inserts
while `apply_event(Key ALT_ENTER)` is unhandled. -/
theorem claim10_apply_event_not_equiv :
    applyKeyEvent sampleC10 InputField.ENTER = ((sampleC10.insert_new_line).1, true)
    ∧ ((sampleC10.insert_new_line).1).content.lines.length
        = sampleC10.content.lines.length + 1
    ∧ applyEvent sampleC10 (Event.Key InputField.ENTER) = (sampleC10, false)
    ∧ applyKeyEvent sampleC10b InputField.ALT_ENTER
        = ((sampleC10b.insert_new_line).1, true)
    ∧ applyEvent sampleC10b (Event.Key InputField.ALT_ENTER) = (sampleC10b, false) := by
  decide

end Termimad
